import Mathlib

set_option maxHeartbeats 1000000
set_option linter.unusedVariables false

/-!
Shallow embedding of
src/Libs/CommandLineModules/Backend/LocalProcess/ctkCmdLineModuleProcessTask.cpp
(the Q_OS_UNIX build). QProcess and QFutureInterface are external Qt
collaborators; they are modelled as explicit state records exposing exactly the
operations the source invokes on them. Floats are modelled as rationals;
C++ float-to-int conversion is explicit truncation toward zero.
-/

/-- Model of the values of the QProcess::ProcessError enumeration.
QProcess::UnknownError is the value reported when no error occurred. -/
inductive ProcessError where
  | failedToStart
  | crashed
  | timedout
  | writeError
  | readError
  | unknownError
deriving DecidableEq, Repr

/-- Collaborator model of the QProcess as observed by run() after the local
event loop exits: the process error state, the exit code, the error string and
the standard-error content buffered in the process at that moment (what the
first readAllStandardError call returns before draining the buffer). -/
structure ProcessOutcome where
  error : ProcessError
  exitCode : Int
  errorString : String
  stdErr : String
deriving DecidableEq, Repr

/-- Payload of ctkCmdLineModuleRunException(location, errorCode, errorString)
as constructed at the two reportException sites in run(). -/
structure RunException where
  location : String
  errorCode : Int
  errorString : String
deriving DecidableEq, Repr

/-- Collaborator model of the ctkCmdLineModuleFutureInterface state the source
mutates: progress range, progress value, progress text, the paused flag and the
canceled flag. -/
structure FutureState where
  progressMin : Int
  progressMax : Int
  progressValue : Int
  progressText : String
  paused : Bool
  canceled : Bool
deriving DecidableEq, Repr

/-- QFutureInterface::setProgressRange(lo, hi). -/
def FutureState.setProgressRange (f : FutureState) (lo hi : Int) : FutureState :=
  { f with progressMin := lo, progressMax := hi }

/-- QFutureInterface::setProgressValue(v). -/
def FutureState.setProgressValue (f : FutureState) (v : Int) : FutureState :=
  { f with progressValue := v }

/-- QFutureInterface::setProgressValueAndText(v, t). -/
def FutureState.setProgressValueAndText (f : FutureState) (v : Int) (t : String) :
    FutureState :=
  { f with progressValue := v, progressText := t }

/-- QFutureInterface::setPaused(b). -/
def FutureState.setPaused (f : FutureState) (b : Bool) : FutureState :=
  { f with paused := b }

/-- QFutureInterface::isPaused(). -/
def FutureState.isPaused (f : FutureState) : Bool := f.paused

/-- Member state of ctkCmdLineModuleProcessWatcher: the processPaused flag, the
progressValue counter and the location string (used only for diagnostics). -/
structure WatcherState where
  processPaused : Bool
  progressValue : Int
  location : String
deriving DecidableEq, Repr

/-- Combined state the watcher slots operate on: the watcher members, the
referenced future interface, and the qDebug diagnostic stream (a list of
emitted log lines). -/
structure WatchState where
  watcher : WatcherState
  future : FutureState
  log : List String
deriving DecidableEq, Repr

/-- C++ static_cast from a real value to int: truncation toward zero.
For a rational with positive denominator this is num tdiv den. -/
def staticCastInt (q : ℚ) : Int :=
  if 0 ≤ q then ⌊q⌋ else ⌈q⌉

/-- ctkCmdLineModuleProcessWatcher::updateProgress (lines 129-138): sets
progressValue to static_cast of progress * 1000, clamps it below by 1 and
above by 999, and returns it. Returns the reported value and the updated
watcher state. -/
def updateProgress (w : WatcherState) (progress : ℚ) : Int × WatcherState :=
  let v0 := staticCastInt (progress * 1000)
  let v1 := if v0 < 1 then 1 else v0
  let v2 := if v1 > 999 then 999 else v1
  (v2, { w with progressValue := v2 })

/-- ctkCmdLineModuleProcessWatcher::incrementProgress (lines 141-145):
pre-increments progressValue, saturating at 999, and returns it. -/
def incrementProgress (w : WatcherState) : Int × WatcherState :=
  let v0 := w.progressValue + 1
  let v := if v0 > 999 then 999 else v0
  (v, { w with progressValue := v })

/-- The discrete events emitted by the ctkCmdLineModuleXmlProgressWatcher
collaborator (filterStarted, filterProgress, filterFinished, filterXmlError). -/
inductive ProgressEvent where
  | started (name comment : String)
  | progress (fraction : ℚ)
  | finished (name : String)
  | xmlError (msg : String)
deriving DecidableEq, Repr

/-- Whether an event is a parse-error diagnostic event. -/
def ProgressEvent.isXmlError : ProgressEvent → Bool
  | .xmlError _ => true
  | _ => false

/-- ctkCmdLineModuleProcessWatcher::filterStarted (lines 63-67):
setProgressValueAndText(incrementProgress(), name). -/
def filterStarted (s : WatchState) (name comment : String) : WatchState :=
  let (v, w) := incrementProgress s.watcher
  { s with watcher := w, future := s.future.setProgressValueAndText v name }

/-- ctkCmdLineModuleProcessWatcher::filterProgress (lines 70-73):
setProgressValue(updateProgress(progress)). -/
def filterProgress (s : WatchState) (progress : ℚ) : WatchState :=
  let (v, w) := updateProgress s.watcher progress
  { s with watcher := w, future := s.future.setProgressValue v }

/-- ctkCmdLineModuleProcessWatcher::filterFinished (lines 76-79):
setProgressValueAndText(incrementProgress(), "Finished: " + name). -/
def filterFinished (s : WatchState) (name : String) : WatchState :=
  let (v, w) := incrementProgress s.watcher
  { s with watcher := w,
           future := s.future.setProgressValueAndText v ("Finished: " ++ name) }

/-- ctkCmdLineModuleProcessWatcher::filterXmlError (lines 82-85): emits a
qDebug diagnostic tagged with the module location; changes no progress state. -/
def filterXmlError (s : WatchState) (error : String) : WatchState :=
  { s with log := s.log ++ ["[Module " ++ s.watcher.location ++ "]: " ++ error] }

/-- Dispatch of one progress event to the connected watcher slot. -/
def handleEvent (s : WatchState) : ProgressEvent → WatchState
  | .started name comment => filterStarted s name comment
  | .progress fraction => filterProgress s fraction
  | .finished name => filterFinished s name
  | .xmlError msg => filterXmlError s msg

/-- Processing of a sequence of progress events, in order. -/
def runEvents (s : WatchState) (es : List ProgressEvent) : WatchState :=
  es.foldl handleEvent s

/-- POSIX signals sent by the watcher through kill(). -/
inductive Signal where
  | sigstop
  | sigcont
deriving DecidableEq, Repr

/-- ctkCmdLineModuleProcessWatcher::pauseProcess (lines 88-103). Returns the
new state and the list of signals whose delivery was attempted. killFails
models a nonzero return of kill(pid, SIGSTOP), i.e. failed delivery. -/
def pauseProcess (s : WatchState) (killFails : Bool) : WatchState × List Signal :=
  if s.watcher.processPaused || !s.future.isPaused then (s, [])
  else if killFails then
    ({ s with future := s.future.setPaused false }, [Signal.sigstop])
  else
    ({ s with watcher := { s.watcher with processPaused := true } }, [Signal.sigstop])

/-- ctkCmdLineModuleProcessWatcher::resumeProcess (lines 106-121). Returns the
new state and the list of signals whose delivery was attempted. killFails
models a nonzero return of kill(pid, SIGCONT). -/
def resumeProcess (s : WatchState) (killFails : Bool) : WatchState × List Signal :=
  if !s.watcher.processPaused then (s, [])
  else if killFails then
    ({ s with future := s.future.setPaused true }, [Signal.sigcont])
  else
    ({ s with watcher := { s.watcher with processPaused := false } }, [Signal.sigcont])

/-- Actions the watcher can request on the QProcess. -/
inductive ProcAction where
  | terminate
deriving DecidableEq, Repr

/-- ctkCmdLineModuleProcessWatcher::cancelProcess (lines 124-127): the slot
connected to the canceled() signal; its whole body is process.terminate(). -/
def cancelProcess : List ProcAction := [ProcAction.terminate]

/-- ctkCmdLineModuleProcessWatcher constructor (lines 37-60): seeds
processPaused at false and progressValue at 0, and sets the future progress
range to [0, 1000]. -/
def mkWatchState (f : FutureState) (location : String) : WatchState :=
  { watcher := { processPaused := false, progressValue := 0, location := location },
    future := f.setProgressRange 0 1000,
    log := [] }

/-- Observable actions performed by ctkCmdLineModuleProcessTask::run on the
process and the future interface, in order. -/
inductive RunAction where
  | spawn
  | reportException (e : RunException)
  | setProgressValueAndText (v : Int) (t : String)
  | reportFinished
deriving DecidableEq, Repr

/-- Whether a run action is the reportFinished terminal transition. -/
def RunAction.isReportFinished : RunAction → Bool
  | .reportFinished => true
  | _ => false

/-- The exceptions reported along a run trace. -/
def exceptionsOf (tr : List RunAction) : List RunException :=
  tr.filterMap fun a =>
    match a with
    | RunAction.reportException e => some e
    | _ => none

/-- ctkCmdLineModuleProcessTask::run (lines 173-209). If the future is already
canceled at entry it only reports finished. Otherwise it spawns the process,
constructs the watcher, lets the event loop deliver the progress events, then:
if the process error is not UnknownError it reports an exception carrying the
process error string; else if the exit code is nonzero it reports an exception
carrying the exit code and the standard-error content read by
readAllStandardError; then it sets progress to 1000 with a second
readAllStandardError call as the text and reports finished.
QProcess::readAllStandardError is a consuming read: it returns the buffered
standard-error content (outcome.stdErr at event-loop exit) and drains the
buffer, so on the nonzero-exit path the second call at line 204 returns the
empty string. The exception branch is modelled as the pair of reported
exception actions and the buffer content remaining for line 204.
Returns the ordered action trace and the final future state. -/
def run (location : String) (events : List ProgressEvent)
    (outcome : ProcessOutcome) (f0 : FutureState) :
    List RunAction × FutureState :=
  if f0.canceled then ([RunAction.reportFinished], f0)
  else
    let s0 := mkWatchState f0 location
    let s1 := runEvents s0 events
    let exStep : List RunAction × String :=
      if outcome.error ≠ ProcessError.unknownError then
        ([RunAction.reportException ⟨location, outcome.exitCode, outcome.errorString⟩],
         outcome.stdErr)
      else if outcome.exitCode ≠ 0 then
        ([RunAction.reportException ⟨location, outcome.exitCode, outcome.stdErr⟩],
         "")
      else ([], outcome.stdErr)
    let f2 := s1.future.setProgressValueAndText 1000 exStep.2
    (RunAction.spawn :: exStep.1 ++
       [RunAction.setProgressValueAndText 1000 exStep.2,
        RunAction.reportFinished],
     f2)

/-- Terminal states of the task handle. -/
inductive TerminalState where
  | canceledState
  | finishedState
deriving DecidableEq, Repr

/-- Collaborator model of QFutureInterface::reportFinished: a future that was
canceled before finishing ends in the Canceled terminal state, otherwise in
the Finished terminal state. -/
def terminalOf (f : FutureState) : TerminalState :=
  if f.canceled then TerminalState.canceledState else TerminalState.finishedState

/-- Modelled from the spec: the reported progress integer claimed for a
Progress event, clamp(round(fraction * 1000), 1, 999), with the usual
round-half-up convention. -/
def specProgressValue (fraction : ℚ) : Int :=
  min (max ⌊fraction * 1000 + 1 / 2⌋ 1) 999

/-- Whether an event is a fractional Progress event. -/
def ProgressEvent.isProgress : ProgressEvent → Bool
  | .progress _ => true
  | _ => false

/-- Invariant maintained by the watcher slots while the process runs: the
future holds the last reported counter value, and the counter lies in
[0, 999]. -/
def StateInv (s : WatchState) : Prop :=
  s.future.progressValue = s.watcher.progressValue ∧
  0 ≤ s.watcher.progressValue ∧ s.watcher.progressValue ≤ 999

theorem stateInv_handleEvent (s : WatchState) (e : ProgressEvent) (h : StateInv s) :
    StateInv (handleEvent s e) := by
  obtain ⟨hsync, hlo, hhi⟩ := h
  cases e with
  | started name comment =>
    refine ⟨rfl, ?_, ?_⟩ <;>
      simp only [handleEvent, filterStarted, incrementProgress,
        FutureState.setProgressValueAndText] <;>
      split_ifs <;> omega
  | progress fraction =>
    refine ⟨rfl, ?_, ?_⟩ <;>
      simp only [handleEvent, filterProgress, updateProgress,
        FutureState.setProgressValue] <;>
      split_ifs <;> omega
  | finished name =>
    refine ⟨rfl, ?_, ?_⟩ <;>
      simp only [handleEvent, filterFinished, incrementProgress,
        FutureState.setProgressValueAndText] <;>
      split_ifs <;> omega
  | xmlError msg =>
    exact ⟨hsync, hlo, hhi⟩

theorem stateInv_runEvents (es : List ProgressEvent) (s : WatchState)
    (h : StateInv s) : StateInv (runEvents s es) := by
  induction es generalizing s with
  | nil => exact h
  | cons e es ih =>
    exact ih (handleEvent s e) (stateInv_handleEvent s e h)

theorem stateInv_init (f0 : FutureState) (loc : String)
    (h : f0.progressValue = 0) : StateInv (mkWatchState f0 loc) := by
  refine ⟨?_, ?_, ?_⟩ <;>
    simp [mkWatchState, FutureState.setProgressRange, h]

theorem handleEvent_value_bounds (s : WatchState) (e : ProgressEvent)
    (h : StateInv s) (he : e.isXmlError = false) :
    1 ≤ (handleEvent s e).future.progressValue ∧
    (handleEvent s e).future.progressValue ≤ 999 := by
  obtain ⟨hsync, hlo, hhi⟩ := h
  cases e with
  | started name comment =>
    constructor <;>
      simp only [handleEvent, filterStarted, incrementProgress,
        FutureState.setProgressValueAndText] <;>
      split_ifs <;> omega
  | progress fraction =>
    constructor <;>
      simp only [handleEvent, filterProgress, updateProgress,
        FutureState.setProgressValue] <;>
      split_ifs <;> omega
  | finished name =>
    constructor <;>
      simp only [handleEvent, filterFinished, incrementProgress,
        FutureState.setProgressValueAndText] <;>
      split_ifs <;> omega
  | xmlError msg =>
    simp [ProgressEvent.isXmlError] at he

/-- C1 (counterexample): at fraction 3/32 the code reports
static_cast of 93.75, i.e. 93, while the claimed formula
clamp(round(fraction * 1000), 1, 999) gives round(93.75) = 94, so the claimed
equality fails. -/
theorem c1_counterexample :
    (updateProgress ⟨false, 0, "m"⟩ (3 / 32)).1 ≠ specProgressValue (3 / 32) := by
  have h1 : (updateProgress ⟨false, 0, "m"⟩ ((3 : ℚ) / 32)).1 = 93 := by
    norm_num [updateProgress, staticCastInt]
  have h2 : specProgressValue ((3 : ℚ) / 32) = 94 := by
    norm_num [specProgressValue]
  rw [h1, h2]
  decide

/-- C1 (amended): on a Progress event with fraction in [0, 1], updateProgress
sets the counter to clamp(trunc(fraction * 1000), 1, 999), truncation toward
zero rather than rounding to nearest; the computed value both is returned and
replaces the stored counter, and it does not depend on the previous counter
value (it is a set, not an increment). -/
theorem c1_amended (fr : ℚ) (w : WatcherState) (h0 : 0 ≤ fr) (h1 : fr ≤ 1) :
    (updateProgress w fr).1 = min (max (staticCastInt (fr * 1000)) 1) 999 ∧
    (updateProgress w fr).2.progressValue = (updateProgress w fr).1 ∧
    ∀ w2 : WatcherState, (updateProgress w2 fr).1 = (updateProgress w fr).1 := by
  refine ⟨?_, ?_, ?_⟩
  · simp only [updateProgress]
    split_ifs <;> omega
  · simp [updateProgress]
  · intro w2
    simp [updateProgress]

/-- C1 (witness): the amended theorem applied at fraction 0 and a concrete
watcher state. -/
theorem c1_amended_witness :
    (updateProgress ⟨false, 0, "m"⟩ 0).1 =
      min (max (staticCastInt ((0 : ℚ) * 1000)) 1) 999 :=
  (c1_amended 0 ⟨false, 0, "m"⟩ (by decide) (by decide)).1

/-- C3: a Started event advances the counter by exactly 1 saturating at 999
and sets the status text to the filter name; a Finished event advances the
counter by exactly 1 saturating at 999 and sets the status text to
"Finished: " followed by the name. -/
theorem c3_started_finished (s : WatchState) (name comment : String) :
    (filterStarted s name comment).watcher.progressValue =
        min (s.watcher.progressValue + 1) 999 ∧
    (filterStarted s name comment).future.progressValue =
        min (s.watcher.progressValue + 1) 999 ∧
    (filterStarted s name comment).future.progressText = name ∧
    (filterFinished s name).watcher.progressValue =
        min (s.watcher.progressValue + 1) 999 ∧
    (filterFinished s name).future.progressValue =
        min (s.watcher.progressValue + 1) 999 ∧
    (filterFinished s name).future.progressText = "Finished: " ++ name := by
  refine ⟨?_, ?_, ?_, ?_, ?_, ?_⟩ <;>
    simp only [filterStarted, filterFinished, incrementProgress,
      FutureState.setProgressValueAndText] <;>
    first
      | rfl
      | (split_ifs <;> omega)

/-- C2: the watcher seeds the counter at 0; starting from a fresh future
(progress value 0), any sequence of progress events leaves the reported value
in [0, 1000]; every event-driven update (any event other than a parse error)
lands in [1, 999]; and run() sets the value 1000 at its end, after the process
outcome is known. -/
theorem c2_progress_range :
    (∀ (f0 : FutureState) (loc : String),
        (mkWatchState f0 loc).watcher.progressValue = 0) ∧
    (∀ (f0 : FutureState) (loc : String) (es : List ProgressEvent),
        f0.progressValue = 0 →
        0 ≤ (runEvents (mkWatchState f0 loc) es).future.progressValue ∧
        (runEvents (mkWatchState f0 loc) es).future.progressValue ≤ 1000) ∧
    (∀ (f0 : FutureState) (loc : String) (es : List ProgressEvent)
        (e : ProgressEvent),
        f0.progressValue = 0 → e.isXmlError = false →
        1 ≤ (handleEvent (runEvents (mkWatchState f0 loc) es) e).future.progressValue ∧
        (handleEvent (runEvents (mkWatchState f0 loc) es) e).future.progressValue ≤ 999) ∧
    (∀ (loc : String) (events : List ProgressEvent) (outcome : ProcessOutcome)
        (f0 : FutureState),
        f0.canceled = false →
        (run loc events outcome f0).2.progressValue = 1000) := by
  refine ⟨?_, ?_, ?_, ?_⟩
  · intro f0 loc
    simp [mkWatchState]
  · intro f0 loc es h
    have hinv := stateInv_runEvents es (mkWatchState f0 loc) (stateInv_init f0 loc h)
    obtain ⟨hsync, hlo, hhi⟩ := hinv
    omega
  · intro f0 loc es e h he
    exact handleEvent_value_bounds (runEvents (mkWatchState f0 loc) es) e
      (stateInv_runEvents es (mkWatchState f0 loc) (stateInv_init f0 loc h)) he
  · intro loc events outcome f0 h
    simp [run, h, FutureState.setProgressValueAndText]

/-- C2 (witness): the range theorem applied to a concrete fresh future and a
concrete event sequence. -/
theorem c2_progress_range_witness :
    0 ≤ (runEvents (mkWatchState ⟨0, 0, 0, "", false, false⟩ "m")
          [ProgressEvent.started "f" "c"]).future.progressValue ∧
    (runEvents (mkWatchState ⟨0, 0, 0, "", false, false⟩ "m")
          [ProgressEvent.started "f" "c"]).future.progressValue ≤ 1000 :=
  c2_progress_range.2.1 ⟨0, 0, 0, "", false, false⟩ "m"
    [ProgressEvent.started "f" "c"] rfl

/-- C4: if the future is already canceled at entry to run(), the whole run
trace is the single reportFinished action (in particular no process is
spawned and no exception is reported), and the handle ends in the Canceled
terminal state; the watcher slot connected to the canceled() signal performs
exactly one terminate() call on the process. -/
theorem c4_cancel :
    (∀ (loc : String) (events : List ProgressEvent) (outcome : ProcessOutcome)
        (f0 : FutureState),
        f0.canceled = true →
        (run loc events outcome f0).1 = [RunAction.reportFinished] ∧
        RunAction.spawn ∉ (run loc events outcome f0).1 ∧
        terminalOf (run loc events outcome f0).2 = TerminalState.canceledState) ∧
    cancelProcess = [ProcAction.terminate] := by
  refine ⟨?_, rfl⟩
  intro loc events outcome f0 h
  refine ⟨?_, ?_, ?_⟩ <;> simp [run, h, terminalOf]

/-- C4 (witness): the cancel theorem applied to a concrete canceled future. -/
theorem c4_cancel_witness :
    (run "p" [] ⟨ProcessError.unknownError, 0, "", ""⟩
        ⟨0, 0, 0, "", false, true⟩).1 = [RunAction.reportFinished] :=
  (c4_cancel.1 "p" [] ⟨ProcessError.unknownError, 0, "", ""⟩
    ⟨0, 0, 0, "", false, true⟩ rfl).1

/-- C5: after the process ends (run not canceled at entry), an exception is
reported exactly when the process error is not UnknownError or the exit code
is nonzero; an OS-level error yields the exception carrying the process error
string, a clean nonzero exit yields the exception carrying the exit code and
the captured standard-error content, and a clean zero exit reports no
exception. -/
theorem c5_exceptions (loc : String) (events : List ProgressEvent)
    (outcome : ProcessOutcome) (f0 : FutureState) (h : f0.canceled = false) :
    ((∃ e, e ∈ exceptionsOf (run loc events outcome f0).1) ↔
        (outcome.error ≠ ProcessError.unknownError ∨ outcome.exitCode ≠ 0)) ∧
    (outcome.error ≠ ProcessError.unknownError →
        exceptionsOf (run loc events outcome f0).1 =
          [⟨loc, outcome.exitCode, outcome.errorString⟩]) ∧
    (outcome.error = ProcessError.unknownError → outcome.exitCode ≠ 0 →
        exceptionsOf (run loc events outcome f0).1 =
          [⟨loc, outcome.exitCode, outcome.stdErr⟩]) ∧
    (outcome.error = ProcessError.unknownError → outcome.exitCode = 0 →
        exceptionsOf (run loc events outcome f0).1 = []) := by
  by_cases herr : outcome.error = ProcessError.unknownError <;>
    by_cases hexit : outcome.exitCode = 0 <;>
      simp [run, h, herr, hexit, exceptionsOf]

/-- C5 (witness): the exception theorem applied to a concrete clean exit with
code 2 and standard-error content "boom". -/
theorem c5_exceptions_witness :
    exceptionsOf (run "p" [] ⟨ProcessError.unknownError, 2, "", "boom"⟩
        ⟨0, 0, 0, "", false, false⟩).1 = [⟨"p", 2, "boom"⟩] :=
  (c5_exceptions "p" [] ⟨ProcessError.unknownError, 2, "", "boom"⟩
    ⟨0, 0, 0, "", false, false⟩ rfl).2.2.1 rfl (by decide)

/-- C6 (counterexample): at a concrete state in the failed-SIGSTOP branch
(processPaused false, future paused, kill failing), pauseProcess does roll the
pause back (the future paused flag becomes false) but emits no diagnostic: the
qDebug stream stays empty, contradicting the clause that an error is logged
on failed delivery. -/
theorem c6_counterexample :
    (pauseProcess ⟨⟨false, 5, "m"⟩, ⟨0, 1000, 5, "", true, false⟩, []⟩ true).1.log
        = [] ∧
    (pauseProcess ⟨⟨false, 5, "m"⟩, ⟨0, 1000, 5, "", true, false⟩, []⟩
        true).1.future.paused = false := by
  constructor <;> rfl

/-- C6 (amended): pauseProcess is idempotent: if the internal processPaused
flag is already set, or the future is not flagged as paused, it attempts no
signal and changes no state; if SIGSTOP delivery fails, the pause request is
rolled back by clearing the future paused flag while processPaused stays
false and the watcher state is untouched, no error is raised to the caller
and no diagnostic is emitted. -/
theorem c6_pause (s : WatchState) :
    (s.watcher.processPaused = true ∨ s.future.paused = false →
        ∀ killFails, pauseProcess s killFails = (s, [])) ∧
    (s.watcher.processPaused = false → s.future.paused = true →
        (pauseProcess s true).2 = [Signal.sigstop] ∧
        (pauseProcess s true).1.future.paused = false ∧
        (pauseProcess s true).1.watcher.processPaused = false ∧
        (pauseProcess s true).1.watcher = s.watcher ∧
        (pauseProcess s true).1.log = s.log) := by
  constructor
  · intro h killFails
    rcases h with h | h <;> simp [pauseProcess, FutureState.isPaused, h]
  · intro h1 h2
    refine ⟨?_, ?_, ?_, ?_, ?_⟩ <;>
      simp [pauseProcess, FutureState.isPaused, FutureState.setPaused, h1, h2]

/-- C6 (witness): the amended pause theorem applied at a concrete state with
processPaused already set. -/
theorem c6_pause_witness :
    pauseProcess ⟨⟨true, 5, "m"⟩, ⟨0, 1000, 5, "", true, false⟩, []⟩ false =
      (⟨⟨true, 5, "m"⟩, ⟨0, 1000, 5, "", true, false⟩, []⟩, []) :=
  (c6_pause ⟨⟨true, 5, "m"⟩, ⟨0, 1000, 5, "", true, false⟩, []⟩).1
    (Or.inl rfl) false

/-- C7 (counterexample): from a fresh state, the event sequence
Progress(1/2) then Progress(1/10) moves the reported value from 500 down to
100 while the task is running, so the per-event non-decreasing claim fails. -/
theorem c7_counterexample :
    (handleEvent (handleEvent (mkWatchState ⟨0, 0, 0, "", false, false⟩ "m")
          (ProgressEvent.progress (1 / 2)))
        (ProgressEvent.progress (1 / 10))).future.progressValue <
    (handleEvent (mkWatchState ⟨0, 0, 0, "", false, false⟩ "m")
        (ProgressEvent.progress (1 / 2))).future.progressValue := by
  have h1 : handleEvent (mkWatchState ⟨0, 0, 0, "", false, false⟩ "m")
      (ProgressEvent.progress (1 / 2)) =
      ⟨⟨false, 500, "m"⟩, ⟨0, 1000, 500, "", false, false⟩, []⟩ := by
    norm_num [handleEvent, filterProgress, updateProgress, mkWatchState,
      FutureState.setProgressRange, FutureState.setProgressValue, staticCastInt]
  rw [h1]
  norm_num [handleEvent, filterProgress, updateProgress,
    FutureState.setProgressValue, staticCastInt]

/-- C7 (amended): while running, the reported value is non-decreasing under
every event except fractional Progress events: Started, Finished and parse
error events never lower it; a Progress event instead sets the value to the
clamped fraction, which always lands in [1, 999] but may be lower than the
previous value. -/
theorem c7_amended (s : WatchState) (e : ProgressEvent) (h : StateInv s) :
    (e.isProgress = false →
        s.future.progressValue ≤ (handleEvent s e).future.progressValue) ∧
    (e.isProgress = true →
        1 ≤ (handleEvent s e).future.progressValue ∧
        (handleEvent s e).future.progressValue ≤ 999) := by
  obtain ⟨hsync, hlo, hhi⟩ := h
  constructor
  · intro hne
    cases e with
    | started name comment =>
      simp only [handleEvent, filterStarted, incrementProgress,
        FutureState.setProgressValueAndText]
      split_ifs <;> omega
    | progress fraction =>
      simp [ProgressEvent.isProgress] at hne
    | finished name =>
      simp only [handleEvent, filterFinished, incrementProgress,
        FutureState.setProgressValueAndText]
      split_ifs <;> omega
    | xmlError msg =>
      simp [handleEvent, filterXmlError]
  · intro hp
    cases e with
    | started name comment => simp [ProgressEvent.isProgress] at hp
    | progress fraction =>
      constructor <;>
        simp only [handleEvent, filterProgress, updateProgress,
          FutureState.setProgressValue] <;>
        split_ifs <;> omega
    | finished name => simp [ProgressEvent.isProgress] at hp
    | xmlError msg => simp [ProgressEvent.isProgress] at hp

/-- C7 (witness): the amended theorem applied at a fresh state and a concrete
Started event. -/
theorem c7_amended_witness :
    (mkWatchState ⟨0, 0, 0, "", false, false⟩ "m").future.progressValue ≤
      (handleEvent (mkWatchState ⟨0, 0, 0, "", false, false⟩ "m")
        (ProgressEvent.started "f" "c")).future.progressValue :=
  (c7_amended (mkWatchState ⟨0, 0, 0, "", false, false⟩ "m")
    (ProgressEvent.started "f" "c") ⟨rfl, by decide, by decide⟩).1 rfl

/-- C8: on every control path through run() (early-canceled, OS error,
nonzero exit, clean success) the trace contains exactly one reportFinished,
it is the last action, and at most one exception is reported before it. -/
theorem c8_exactly_one_finish (loc : String) (events : List ProgressEvent)
    (outcome : ProcessOutcome) (f0 : FutureState) :
    (run loc events outcome f0).1.countP RunAction.isReportFinished = 1 ∧
    (run loc events outcome f0).1.getLast? = some RunAction.reportFinished ∧
    (exceptionsOf (run loc events outcome f0).1).length ≤ 1 := by
  by_cases h : f0.canceled = true
  · refine ⟨?_, ?_, ?_⟩ <;>
      simp [run, h, exceptionsOf, RunAction.isReportFinished]
  · simp only [Bool.not_eq_true] at h
    by_cases herr : outcome.error = ProcessError.unknownError <;>
      by_cases hexit : outcome.exitCode = 0 <;>
        refine ⟨?_, ?_, ?_⟩ <;>
          simp [run, h, herr, hexit, exceptionsOf, RunAction.isReportFinished,
            List.countP_cons, List.getLast?]

/-- C9: resumeProcess is a no-op when processPaused is not set; when it is
set and SIGCONT delivery fails, the resume is rolled back by re-setting the
future paused flag while processPaused remains true; only on successful
delivery is processPaused cleared (and then the future state is untouched). -/
theorem c9_resume (s : WatchState) :
    (s.watcher.processPaused = false →
        ∀ killFails, resumeProcess s killFails = (s, [])) ∧
    (s.watcher.processPaused = true →
        (resumeProcess s true).2 = [Signal.sigcont] ∧
        (resumeProcess s true).1.future.paused = true ∧
        (resumeProcess s true).1.watcher.processPaused = true ∧
        (resumeProcess s false).1.watcher.processPaused = false ∧
        (resumeProcess s false).1.future = s.future) := by
  constructor
  · intro h killFails
    simp [resumeProcess, h]
  · intro h
    refine ⟨?_, ?_, ?_, ?_, ?_⟩ <;>
      simp [resumeProcess, FutureState.setPaused, h]

/-- C9 (witness): the resume theorem applied at a concrete state with
processPaused not set. -/
theorem c9_resume_witness :
    resumeProcess ⟨⟨false, 5, "m"⟩, ⟨0, 1000, 5, "", false, false⟩, []⟩ true =
      (⟨⟨false, 5, "m"⟩, ⟨0, 1000, 5, "", false, false⟩, []⟩, []) :=
  (c9_resume ⟨⟨false, 5, "m"⟩, ⟨0, 1000, 5, "", false, false⟩, []⟩).1 rfl true

/-- C10 (counterexample): on a clean nonzero exit (code 2, standard error
"boom"), the exception at line 201 consumes the standard-error buffer, so the
final snapshot set at line 204 carries the empty text, not "boom": the
claimed "captured standard-error text as the status text" fails on this
path even though the exception itself did capture "boom". -/
theorem c10_counterexample :
    exceptionsOf (run "p" [] ⟨ProcessError.unknownError, 2, "", "boom"⟩
        ⟨0, 0, 0, "", false, false⟩).1 = [⟨"p", 2, "boom"⟩] ∧
    (run "p" [] ⟨ProcessError.unknownError, 2, "", "boom"⟩
        ⟨0, 0, 0, "", false, false⟩).2.progressText = "" ∧
    (run "p" [] ⟨ProcessError.unknownError, 2, "", "boom"⟩
        ⟨0, 0, 0, "", false, false⟩).2.progressText ≠ "boom" := by
  refine ⟨?_, ?_, ?_⟩ <;> decide

/-- C10 (amended): whenever run() was not canceled at entry, its final future
snapshot has progress value 1000 and the trace ends with the 1000 progress
set followed by reportFinished, on every outcome including those where an
exception was just reported; the status text set alongside is the content
then remaining in the standard-error buffer: the buffered standard-error
content on OS-error and clean-success paths, but the empty string on the
clean nonzero-exit path, where the exception payload already drained the
buffer. -/
theorem c10_final_snapshot (loc : String) (events : List ProgressEvent)
    (outcome : ProcessOutcome) (f0 : FutureState) (h : f0.canceled = false) :
    (run loc events outcome f0).2.progressValue = 1000 ∧
    (run loc events outcome f0).1.getLast? = some RunAction.reportFinished ∧
    (outcome.error ≠ ProcessError.unknownError →
        (run loc events outcome f0).2.progressText = outcome.stdErr) ∧
    (outcome.error = ProcessError.unknownError → outcome.exitCode = 0 →
        (run loc events outcome f0).2.progressText = outcome.stdErr) ∧
    (outcome.error = ProcessError.unknownError → outcome.exitCode ≠ 0 →
        (run loc events outcome f0).2.progressText = "" ∧
        exceptionsOf (run loc events outcome f0).1 =
          [⟨loc, outcome.exitCode, outcome.stdErr⟩]) := by
  by_cases herr : outcome.error = ProcessError.unknownError <;>
    by_cases hexit : outcome.exitCode = 0 <;>
      refine ⟨?_, ?_, ?_, ?_, ?_⟩ <;>
        simp [run, h, herr, hexit, FutureState.setProgressValueAndText,
          List.getLast?, exceptionsOf]

/-- C10 (witness): the amended final-snapshot theorem applied to a concrete
failed run: exit code 2 with standard-error content "boom" still ends at
progress 1000. -/
theorem c10_final_snapshot_witness :
    (run "p" [] ⟨ProcessError.unknownError, 2, "", "boom"⟩
        ⟨0, 0, 0, "", false, false⟩).2.progressValue = 1000 :=
  (c10_final_snapshot "p" [] ⟨ProcessError.unknownError, 2, "", "boom"⟩
    ⟨0, 0, 0, "", false, false⟩ rfl).1
